import Mathlib

/-!
Verification of `tools/auto_copilot_pipeline.py` (azzon/story4).

This file is a shallow embedding of the pipeline orchestrator: the GitHub
client retry wrapper (`_run_gh`), the timeline scanners
(`latest_pr_from_timeline`, `check_copilot_signal`), the work-item builder
(`iter_work_items`), issue acquisition (`_ensure_issue`), the reset
controller (`_reset_issue`), the per-tick monitoring loop body
(`_wait_and_merge`, modelled as a step function over an explicit state),
the batch runner retry loop (`Pipeline.run`) and the `main` driver loop.

External effects (gh CLI calls, clock reads) are modelled by explicit
oracle inputs: each remote call's outcome is a field of an environment
record, fallible calls are `Except`-valued, and the actions the code
performs against the tracker are collected in an explicit action trace.
Logging is not modelled except where a claim mentions it (the
closed-without-PR warning). `time.time()` reads within one loop iteration
are modelled by a single per-tick timestamp.
-/

namespace AutoCopilot

/-! ## Module-level configuration constants (轮询配置 section of the source) -/

def DEFAULT_POLL_INTERVAL : Nat := 60
def DEFAULT_MAX_WAIT : Int := 36000
def DEFAULT_TASK_MAX_RETRIES : Nat := 3
def DEFAULT_TASK_RETRY_WAIT : Nat := 300
def DEFAULT_MAX_PR_RESETS : Nat := 3
def PR_TIMEOUT : Int := 10800
def PR_WAIT_TIMEOUT : Int := 1800
def RESET_WAIT_TIME : Nat := 30
def GH_TIMEOUT : Nat := 180
def RETRY_SLEEP_SHORT : Nat := 5
def NETWORK_ERROR_BASE_WAIT : Nat := 10
def NETWORK_ERROR_MAX_WAIT : Nat := 120
def PR_READY_WAIT : Nat := 2

def COPILOT_ASSIGNEES : List String :=
  ["@copilot", "copilot", "Copilot", "github-copilot", "github-copilot[bot]"]

def COPILOT_USERNAME : String := "copilot"

/-! ## Timeline events

A GitHub timeline event, as consumed by `latest_pr_from_timeline` and
`check_copilot_signal`.  The source reads `event["event"]` and, for
cross-reference events, `event["source"]["issue"]` (`has_pr_source` models
the `"pull_request" in source` key test, `source_number` models
`source["number"]`).  A timeline fetch through `api_request` with
`silent_fail=True` either yields the event list or — on any error or on a
non-list response — is modelled as `none` (the source gets `{}` back and
its `isinstance(events, list)` guard fails). -/

structure TimelineEvent where
  event : String
  has_pr_source : Bool
  source_number : Nat
deriving Repr, DecidableEq

/-- `check_copilot_signal` (source lines 549-562): scan the PR timeline in
`reversed(events)` order, return `True` on the first
`copilot_work_finished` event, `False` otherwise; a fetch failure yields
`False` (and, the call being total, never an exception). -/
def check_copilot_signal (fetched : Option (List TimelineEvent)) : Bool :=
  match fetched with
  | none => false
  | some events => events.reverse.any (fun e => e.event == "copilot_work_finished")

/-- `GitHubClient.latest_pr_from_timeline` (source lines 515-528): scan in
`reversed(events)` order, return the source number of the first
cross-referenced event carrying a pull request. -/
def latest_pr_from_timeline (fetched : Option (List TimelineEvent)) : Option Nat :=
  match fetched with
  | none => none
  | some events =>
    match events.reverse.find? (fun e => e.event == "cross-referenced" && e.has_pr_source) with
    | some e => some e.source_number
    | none => none

/-- Specification-side description of "the most recently linked
change-request": a left fold keeping the last matching link. -/
def lastPrLink (events : List TimelineEvent) : Option Nat :=
  events.foldl
    (fun acc e =>
      if e.event == "cross-referenced" && e.has_pr_source then some e.source_number else acc)
    none

theorem foldl_keepLast_eq_find_reverse (p : TimelineEvent → Bool)
    (f : TimelineEvent → Nat) :
    ∀ (l : List TimelineEvent) (init : Option Nat),
      l.foldl (fun acc e => if p e then some (f e) else acc) init
        = (match l.reverse.find? p with
           | some e => some (f e)
           | none => init) := by
  intro l
  induction l with
  | nil => intro init; simp
  | cons x xs ih =>
    intro init
    rw [List.foldl_cons, ih]
    simp only [List.reverse_cons, List.find?_append]
    cases h : xs.reverse.find? p with
    | some e => simp
    | none =>
      simp only [Option.none_orElse, List.find?]
      by_cases hp : p x
      · simp [hp]
      · simp [hp]

theorem latest_pr_eq_lastPrLink (events : List TimelineEvent) :
    latest_pr_from_timeline (some events) = lastPrLink events := by
  unfold latest_pr_from_timeline lastPrLink
  rw [foldl_keepLast_eq_find_reverse
    (fun e => e.event == "cross-referenced" && e.has_pr_source) (fun e => e.source_number)]

theorem check_signal_iff (events : List TimelineEvent) :
    check_copilot_signal (some events) = true ↔
      ∃ e ∈ events, e.event = "copilot_work_finished" := by
  unfold check_copilot_signal
  simp [List.any_eq_true]

/-- C2: the completion-signal detector scans the change-request timeline
(most-recent-first, via `reversed(events)`) and returns `true` exactly when
a `copilot_work_finished` event occurs in it; a timeline fetch failure
(modelled as `none`, since `api_request` is called with `silent_fail=True`
and then returns `{}` instead of raising) yields `false`.  The detector is
a total `Bool`-valued function: it never raises. -/
theorem claim_C2_signal_detector :
    check_copilot_signal none = false
    ∧ ∀ events, (check_copilot_signal (some events) = true ↔
        ∃ e ∈ events, e.event = "copilot_work_finished") :=
  ⟨rfl, check_signal_iff⟩

/-- Witness for C2: a concrete timeline with the marker buried among
unrelated events is detected; the empty fetch is not. -/
theorem claim_C2_witness :
    check_copilot_signal
      (some [⟨"labeled", false, 0⟩, ⟨"copilot_work_finished", false, 0⟩,
             ⟨"cross-referenced", true, 7⟩]) = true
    ∧ check_copilot_signal none = false :=
  ⟨(claim_C2_signal_detector.2 _).mpr ⟨⟨"copilot_work_finished", false, 0⟩, by simp, rfl⟩,
   claim_C2_signal_detector.1⟩

/-! ## String helpers

Python string operations used by the source (`sub in s`, `s.lower()`),
modelled over the character lists underlying `String`. -/

def strLower (s : String) : List Char := s.data.map Char.toLower

def charsPrefix : List Char → List Char → Bool
  | [], _ => true
  | _ :: _, [] => false
  | a :: as, b :: bs => a == b && charsPrefix as bs

def charsSub (sub : List Char) : List Char → Bool
  | [] => charsPrefix sub []
  | b :: bs => charsPrefix sub (b :: bs) || charsSub sub bs

/-- Python `sub in s` for plain strings. -/
def strContains (s : String) (sub : String) : Bool := charsSub sub.data s.data

/-- Python `sub in s.lower()` (the keyword `sub` is a lowercase literal in
every use in the source). -/
def lowerContains (s : String) (sub : String) : Bool := charsSub sub.data (strLower s)

/-! ## GitHubClient._run_gh (source lines 290-341)

One gh CLI invocation attempt either succeeds with stdout, raises
`subprocess.TimeoutExpired`, or raises `subprocess.CalledProcessError`
with some stderr text.  The loop over `attempt in range(1, retries + 1)`
classifies failures by stderr substrings and sleeps between attempts; the
outcome of attempt `a` is supplied by an oracle. -/

inductive GhAttempt where
  | success (stdout : String)
  | timedOut
  | failed (stderr : String)
deriving Repr, DecidableEq

def NETWORK_ERRORS : List String :=
  ["tls handshake", "bad gateway", "connection reset",
   "connection refused", "network", "timeout", "eof",
   "502", "503", "504"]

/-- What one iteration of the `_run_gh` retry loop does with the attempt's
outcome: return stdout, raise, or sleep `wait` seconds and move on. -/
inductive GhStep where
  | ret (out : String)
  | raiseErr (msg : String)
  | retryAfter (wait : Nat)
deriving Repr, DecidableEq

/-- Body of the `_run_gh` retry loop for attempt number `attempt` out of
`retries` (source lines 292-339), faithful to the classification order:
final-attempt raise first, then the non-retryable "not found"/"unknown"
raise, then rate-limit/abuse backoff, then network backoff, then the
generic short backoff. -/
def gh_step (attempt retries : Nat) (res : GhAttempt) : GhStep :=
  match res with
  | .success out => .ret out
  | .timedOut =>
    if attempt == retries then .raiseErr "gh command timed out"
    else .retryAfter (min (2 ^ attempt * NETWORK_ERROR_BASE_WAIT) NETWORK_ERROR_MAX_WAIT)
  | .failed stderr =>
    if attempt == retries then .raiseErr ("gh command failed: " ++ stderr)
    else if lowerContains stderr "not found" || lowerContains stderr "unknown" then
      .raiseErr ("gh command error: " ++ stderr)
    else if lowerContains stderr "rate limit" || lowerContains stderr "abuse" then
      .retryAfter (min (300 * attempt) 1800)
    else if NETWORK_ERRORS.any (fun k => lowerContains stderr k) then
      .retryAfter (min (2 ^ attempt * NETWORK_ERROR_BASE_WAIT) NETWORK_ERROR_MAX_WAIT)
    else
      .retryAfter (min (2 ^ attempt) 30)

/-- The `_run_gh` loop from attempt `attempt` with `fuel` attempts left;
returns the call's result together with the list of waits slept.  The
`fuel = 0` case is the unreachable fall-through raise at source line 341. -/
def run_gh_go (retries : Nat) (oracle : Nat → GhAttempt) :
    Nat → Nat → Except String String × List Nat
  | _, 0 => (.error "gh command failed: unknown error", [])
  | attempt, fuel + 1 =>
    match gh_step attempt retries (oracle attempt) with
    | .ret out => (.ok out, [])
    | .raiseErr m => (.error m, [])
    | .retryAfter w =>
      let r := run_gh_go retries oracle (attempt + 1) fuel
      (r.fst, w :: r.snd)

/-- `GitHubClient._run_gh` with per-attempt outcomes given by `oracle`. -/
def run_gh (retries : Nat) (oracle : Nat → GhAttempt) : Except String String × List Nat :=
  run_gh_go retries oracle 1 retries

/-- Error-substring classes used by `_run_gh`. -/
def ghNonRetryable (stderr : String) : Bool :=
  lowerContains stderr "not found" || lowerContains stderr "unknown"

def ghRateLimited (stderr : String) : Bool :=
  lowerContains stderr "rate limit" || lowerContains stderr "abuse"

theorem gh_step_ret_iff (attempt retries : Nat) (res : GhAttempt) (out : String) :
    gh_step attempt retries res = .ret out ↔ res = .success out := by
  cases res with
  | success o => simp [gh_step]
  | timedOut =>
    simp only [gh_step]
    split <;> simp
  | failed e =>
    simp only [gh_step]
    split_ifs <;> simp

theorem gh_exhaust_raises (retries : Nat) (oracle : Nat → GhAttempt)
    (h : ∀ a, ∀ out, oracle a ≠ .success out) :
    ∀ fuel attempt, ∃ m, (run_gh_go retries oracle attempt fuel).fst = .error m := by
  intro fuel
  induction fuel with
  | zero => intro attempt; exact ⟨_, rfl⟩
  | succ n ih =>
    intro attempt
    unfold run_gh_go
    cases hstep : gh_step attempt retries (oracle attempt) with
    | ret out =>
      exact absurd ((gh_step_ret_iff _ _ _ _).mp hstep) (h attempt out)
    | raiseErr m => exact ⟨m, by simp⟩
    | retryAfter w =>
      obtain ⟨m, hm⟩ := ih (attempt + 1)
      exact ⟨m, by simpa using hm⟩

/-- C8: for every tracker-client call under `_run_gh`'s bounded retry, an
error whose (lowercased) text contains "not found" or "unknown" is raised
immediately rather than retried; a rate-limit/quota ("rate limit"/"abuse")
error waits strictly longer before the next attempt than any other
transient failure (network or generic errors, and command timeouts); and
an oracle that never succeeds makes `_run_gh` raise to the caller. -/
theorem claim_C8_run_gh_retry_policy :
    (∀ attempt retries e, ghNonRetryable e = true →
        ∃ m, gh_step attempt retries (.failed e) = GhStep.raiseErr m)
    ∧ (∀ attempt retries e w₁, 1 ≤ attempt →
        ghRateLimited e = true →
        gh_step attempt retries (.failed e) = GhStep.retryAfter w₁ →
        (∀ e₂ w₂, ghRateLimited e₂ = false →
            gh_step attempt retries (.failed e₂) = GhStep.retryAfter w₂ → w₂ < w₁)
          ∧ (∀ w₃, gh_step attempt retries .timedOut = GhStep.retryAfter w₃ → w₃ < w₁))
    ∧ (∀ retries oracle, (∀ a out, oracle a ≠ GhAttempt.success out) →
        ∃ m, (run_gh retries oracle).fst = Except.error m) := by
  refine ⟨?_, ?_, ?_⟩
  · intro attempt retries e he
    simp only [gh_step]
    by_cases ha : (attempt == retries) = true
    · rw [if_pos ha]; exact ⟨_, rfl⟩
    · rw [if_neg ha]
      have hb : (lowerContains e "not found" || lowerContains e "unknown") = true := he
      rw [if_pos hb]; exact ⟨_, rfl⟩
  · intro attempt retries e w₁ hattempt hrate h1
    have h300 : 300 ≤ w₁ := by
      simp only [gh_step] at h1
      by_cases ha : (attempt == retries) = true
      · rw [if_pos ha] at h1; simp at h1
      · rw [if_neg ha] at h1
        by_cases hb : (lowerContains e "not found" || lowerContains e "unknown") = true
        · rw [if_pos hb] at h1; simp at h1
        · rw [if_neg hb] at h1
          have hc : (lowerContains e "rate limit" || lowerContains e "abuse") = true := hrate
          rw [if_pos hc] at h1
          simp only [GhStep.retryAfter.injEq] at h1
          rw [← h1]
          refine le_min ?_ (by norm_num)
          calc (300 : Nat) = 300 * 1 := by norm_num
          _ ≤ 300 * attempt := Nat.mul_le_mul_left 300 hattempt
    constructor
    · intro e₂ w₂ hrate₂ h2
      have hle : w₂ ≤ 120 := by
        simp only [gh_step] at h2
        by_cases ha : (attempt == retries) = true
        · rw [if_pos ha] at h2; simp at h2
        · rw [if_neg ha] at h2
          by_cases hb : (lowerContains e₂ "not found" || lowerContains e₂ "unknown") = true
          · rw [if_pos hb] at h2; simp at h2
          · rw [if_neg hb] at h2
            have hc : ¬ (lowerContains e₂ "rate limit" || lowerContains e₂ "abuse") = true := by
              intro hcc
              rw [show (lowerContains e₂ "rate limit" || lowerContains e₂ "abuse")
                    = ghRateLimited e₂ from rfl, hrate₂] at hcc
              cases hcc
            rw [if_neg hc] at h2
            by_cases hd : (NETWORK_ERRORS.any fun k => lowerContains e₂ k) = true
            · rw [if_pos hd] at h2
              simp only [GhStep.retryAfter.injEq] at h2
              rw [← h2]
              exact le_trans (Nat.min_le_right _ _) (by norm_num [NETWORK_ERROR_MAX_WAIT])
            · rw [if_neg hd] at h2
              simp only [GhStep.retryAfter.injEq] at h2
              rw [← h2]
              exact le_trans (Nat.min_le_right _ _) (by norm_num)
      omega
    · intro w₃ h3
      have hle : w₃ ≤ 120 := by
        simp only [gh_step] at h3
        by_cases ha : (attempt == retries) = true
        · rw [if_pos ha] at h3; simp at h3
        · rw [if_neg ha] at h3
          simp only [GhStep.retryAfter.injEq] at h3
          rw [← h3]
          exact le_trans (Nat.min_le_right _ _) (by norm_num [NETWORK_ERROR_MAX_WAIT])
      omega
  · intro retries oracle h
    exact gh_exhaust_raises retries oracle h retries 1

/-- Witness for C8 at concrete inputs: a 404 "Not Found" stderr raises
immediately on attempt 1 of 3; the attempt-1 rate-limit wait (300s)
strictly exceeds the attempt-1 network-error wait (20s); and an oracle
always failing with a network error makes the whole call raise. -/
theorem claim_C8_witness :
    (∃ m, gh_step 1 3 (GhAttempt.failed "HTTP 404: Not Found") = GhStep.raiseErr m)
    ∧ (20 : Nat) < 300
    ∧ (∃ m, (run_gh 3 (fun _ => GhAttempt.failed "connection reset by peer")).fst
        = Except.error m) :=
  ⟨claim_C8_run_gh_retry_policy.1 1 3 "HTTP 404: Not Found" (by decide),
   (claim_C8_run_gh_retry_policy.2.1 1 3 "API rate limit exceeded" 300 (by decide) (by decide)
       (by decide)).1
     "connection reset by peer" 20 (by decide) (by decide),
   claim_C8_run_gh_retry_policy.2.2 3 (fun _ => GhAttempt.failed "connection reset by peer")
     (fun _ _ h => by cases h)⟩

/-! ## Work items (数据模型 and iter_work_items, source lines 159-187 and 638-699)

`parse_stage_structure` already skips checked (`[x]`) TODO lines, so each
stage file is modelled by its parse result: stage number, file name (sort
tie-break), path stem (used in batch titles) and the list of pending
TODOs. -/

structure TodoItem where
  id_full : String
  title : String
deriving Repr, DecidableEq

structure StageFile where
  stage_number : Nat
  name : String
  stem : String
  todos : List TodoItem
deriving Repr, DecidableEq

structure WorkItem where
  id_full : String
  stage_number : Nat
  title : String
  todos : List TodoItem
  batch_index : Option Nat := none
  batch_total : Option Nat := none
deriving Repr, DecidableEq

/-- Python `batches = [todos[i:i+bs] for i in range(0, len(todos), bs)]`
with chunk size `n + 1`, driven by an explicit fuel (the list length) so
that the definition is structurally recursive and kernel-evaluable. -/
def chunksOfFuel (n : Nat) : Nat → List TodoItem → List (List TodoItem)
  | 0, _ => []
  | _, [] => []
  | fuel + 1, x :: xs => ((x :: xs).take (n + 1)) :: chunksOfFuel n fuel (xs.drop n)

def chunksOf (n : Nat) (l : List TodoItem) : List (List TodoItem) :=
  chunksOfFuel n l.length l

/-- Python `"%02d" % n`. -/
def pad2 (n : Nat) : String := if n < 10 then "0" ++ toString n else toString n

/-- The batch identifier `S{stage:02d}-BATCH-{i:02d}`. -/
def batch_id (stage i : Nat) : String := "S" ++ pad2 stage ++ "-BATCH-" ++ pad2 i

/-- The `stage_items` construction of `iter_work_items` (source lines
672-679): one `WorkItem` per batch, indexed from 1; a singleton batch
reuses the TODO id and title, a larger batch gets a synthetic id and
title. -/
def stage_batch_items (stage : Nat) (stem : String) (total : Nat) :
    Nat → List (List TodoItem) → List WorkItem
  | _, [] => []
  | i, b :: rest =>
    (match b with
     | [t] => { id_full := t.id_full, stage_number := stage, title := t.title, todos := [t] }
     | _ =>
       { id_full := batch_id stage i, stage_number := stage,
         title := stem ++ " 批次 " ++ toString i ++ "/" ++ toString total,
         todos := b, batch_index := some i, batch_total := some total })
      :: stage_batch_items stage stem total (i + 1) rest

/-- The filtering of already-completed items (source lines 681-693):
drop an item whose id is in `completed_ids`, and drop a multi-TODO batch
all of whose sub-TODO ids are in `completed_ids`. -/
def keep_item (completed : List String) (w : WorkItem) : Bool :=
  if completed.contains w.id_full then false
  else if w.todos.length > 1 && w.todos.all (fun t => completed.contains t.id_full) then false
  else true

/-- The per-file body of the `iter_work_items` loop: empty parse results
skip the file; otherwise batch (with `batch_size = max 1 batch_size`),
build the stage's work items and filter completed ones. -/
def stage_filtered (batch_size : Nat) (completed : List String) (f : StageFile) :
    List WorkItem :=
  if f.todos.isEmpty then []
  else
    let bs := max 1 batch_size
    let batches := chunksOf (bs - 1) f.todos
    (stage_batch_items f.stage_number f.stem batches.length 1 batches).filter
      (keep_item completed)

/-- `stage_file_sort_key` (source lines 277-278): order files by
`(stage number, file name)`. -/
def stage_key_le (a b : StageFile) : Prop :=
  a.stage_number < b.stage_number ∨
    (a.stage_number = b.stage_number ∧ a.name.data ≤ b.name.data)

instance stage_key_le_dec : DecidableRel stage_key_le := fun a b =>
  inferInstanceAs (Decidable (a.stage_number < b.stage_number ∨
    (a.stage_number = b.stage_number ∧ a.name.data ≤ b.name.data)))

instance stage_key_le_total : IsTotal StageFile stage_key_le := ⟨by
  intro a b
  rcases Nat.lt_trichotomy a.stage_number b.stage_number with h | h | h
  · exact Or.inl (Or.inl h)
  · rcases le_total a.name.data b.name.data with hn | hn
    · exact Or.inl (Or.inr ⟨h, hn⟩)
    · exact Or.inr (Or.inr ⟨h.symm, hn⟩)
  · exact Or.inr (Or.inl h)⟩

instance stage_key_le_trans : IsTrans StageFile stage_key_le := ⟨by
  intro a b c hab hbc
  rcases hab with h1 | ⟨e1, n1⟩
  · rcases hbc with h2 | ⟨e2, _⟩
    · exact Or.inl (h1.trans h2)
    · exact Or.inl (e2 ▸ h1)
  · rcases hbc with h2 | ⟨e2, n2⟩
    · exact Or.inl (e1 ▸ h2)
    · exact Or.inr ⟨e1.trans e2, le_trans n1 n2⟩⟩

/-- The loop of `iter_work_items` over the sorted files: return the first
file's nonempty filtered item list, else `[]`. -/
def iter_go (batch_size : Nat) (completed : List String) : List StageFile → List WorkItem
  | [] => []
  | f :: rest =>
    let items := stage_filtered batch_size completed f
    if items.isEmpty then iter_go batch_size completed rest else items

/-- `iter_work_items` (source lines 638-699): sort the stage files by
`stage_file_sort_key` and return the first stage's pending work items. -/
def iter_work_items (files : List StageFile) (batch_size : Nat)
    (completed : List String) : List WorkItem :=
  iter_go batch_size completed (List.insertionSort stage_key_le files)

theorem stage_batch_items_stage (stage : Nat) (stem : String) (total : Nat) :
    ∀ (i : Nat) (batches : List (List TodoItem)),
      ∀ w ∈ stage_batch_items stage stem total i batches, w.stage_number = stage := by
  intro i batches
  induction batches generalizing i with
  | nil => intro w hw; cases hw
  | cons b rest ih =>
    intro w hw
    unfold stage_batch_items at hw
    rcases List.mem_cons.mp hw with h | h
    · subst h
      cases b with
      | nil => rfl
      | cons t ts => cases ts with
        | nil => rfl
        | cons _ _ => rfl
    · exact ih (i + 1) w h

theorem stage_filtered_stage (batch_size : Nat) (completed : List String) (f : StageFile) :
    ∀ w ∈ stage_filtered batch_size completed f, w.stage_number = f.stage_number := by
  intro w hw
  unfold stage_filtered at hw
  split at hw
  · cases hw
  · exact stage_batch_items_stage _ _ _ _ _ w (List.mem_of_mem_filter hw)

theorem iter_go_cons (batch_size : Nat) (completed : List String) (f : StageFile)
    (rest : List StageFile) :
    iter_go batch_size completed (f :: rest)
      = if (stage_filtered batch_size completed f).isEmpty
          then iter_go batch_size completed rest
          else stage_filtered batch_size completed f := rfl

theorem iter_go_decompose (batch_size : Nat) (completed : List String) :
    ∀ l : List StageFile, iter_go batch_size completed l ≠ [] →
      ∃ pre f post, l = pre ++ f :: post
        ∧ (∀ p ∈ pre, stage_filtered batch_size completed p = [])
        ∧ iter_go batch_size completed l = stage_filtered batch_size completed f
        ∧ stage_filtered batch_size completed f ≠ [] := by
  intro l
  induction l with
  | nil => intro h; exact absurd rfl h
  | cons f rest ih =>
    intro h
    by_cases hf : (stage_filtered batch_size completed f).isEmpty = true
    · have hgo : iter_go batch_size completed (f :: rest)
          = iter_go batch_size completed rest := by
        rw [iter_go_cons, if_pos hf]
      rw [hgo] at h
      obtain ⟨pre, g, post, hl, hpre, hval, hne⟩ := ih h
      refine ⟨f :: pre, g, post, ?_, ?_, by rw [hgo, hval], hne⟩
      · rw [hl]; simp
      · intro p hp
        rcases List.mem_cons.mp hp with hpf | hpp
        · subst hpf; exact List.isEmpty_iff.mp hf
        · exact hpre p hpp
    · have hne : stage_filtered batch_size completed f ≠ [] := by
        intro hh; exact hf (by rw [hh]; rfl)
      refine ⟨[], f, rest, rfl, ?_, ?_, hne⟩
      · intro p hp; cases hp
      · rw [iter_go_cons, if_neg hf]

/-- C10: every call to `iter_work_items` returns the pending items of a
single stage file: the first file, in the sorted `(stage, name)` order,
whose filtered (uncompleted) item list is nonempty; every returned item
carries that file's stage number, and any file anywhere in the input that
still has pending work has a stage number no smaller — so no later-stage
item is returned while an earlier stage has pending work. -/
theorem claim_C10_stage_locking (files : List StageFile) (batch_size : Nat)
    (completed : List String)
    (hne : iter_work_items files batch_size completed ≠ []) :
    ∃ f, f ∈ files
      ∧ iter_work_items files batch_size completed = stage_filtered batch_size completed f
      ∧ (∀ w ∈ iter_work_items files batch_size completed,
          w.stage_number = f.stage_number)
      ∧ (∀ g ∈ files, stage_filtered batch_size completed g ≠ []
          → f.stage_number ≤ g.stage_number) := by
  set l := List.insertionSort stage_key_le files with hl
  have hperm : l.Perm files := List.perm_insertionSort stage_key_le files
  have hsorted : List.Sorted stage_key_le l := List.sorted_insertionSort stage_key_le files
  obtain ⟨pre, f, post, hsplit, hpre, hval, hfne⟩ :=
    iter_go_decompose batch_size completed l hne
  have hfmem : f ∈ l := by
    rw [hsplit]
    exact List.mem_append.mpr (Or.inr (List.mem_cons_self f post))
  have hiw : iter_work_items files batch_size completed = iter_go batch_size completed l := by
    rw [hl]; rfl
  refine ⟨f, hperm.mem_iff.mp hfmem, hval, ?_, ?_⟩
  · intro w hw
    rw [hiw, hval] at hw
    exact stage_filtered_stage batch_size completed f w hw
  · intro g hg hgne
    have hgl : g ∈ l := hperm.mem_iff.mpr hg
    rw [hsplit] at hgl
    rcases List.mem_append.mp hgl with hgpre | hgrest
    · exact absurd (hpre g hgpre) hgne
    · rcases List.mem_cons.mp hgrest with hgf | hgpost
      · subst hgf; exact le_refl _
      · have hrel : stage_key_le f g := by
          have hsorted' : List.Sorted stage_key_le (f :: post) := by
            rw [hsplit] at hsorted
            exact hsorted.sublist (List.sublist_append_right pre (f :: post))
          exact (List.sorted_cons.mp hsorted').1 g hgpost
        rcases hrel with h | ⟨h, _⟩
        · exact le_of_lt h
        · exact le_of_eq h

/-- Witness for C10: two stage files given out of order, each with one
pending TODO; the builder returns work from stage 1 only. -/
theorem claim_C10_witness :
    ∃ f, f ∈ [⟨2, "Stage-2_b.todos.md", "Stage-2_b.todos", [⟨"T2", "b"⟩]⟩,
              (⟨1, "Stage-1_a.todos.md", "Stage-1_a.todos", [⟨"T1", "a"⟩]⟩ : StageFile)]
      ∧ iter_work_items
          [⟨2, "Stage-2_b.todos.md", "Stage-2_b.todos", [⟨"T2", "b"⟩]⟩,
           ⟨1, "Stage-1_a.todos.md", "Stage-1_a.todos", [⟨"T1", "a"⟩]⟩] 1 []
          = stage_filtered 1 [] f
      ∧ (∀ w ∈ iter_work_items
          [⟨2, "Stage-2_b.todos.md", "Stage-2_b.todos", [⟨"T2", "b"⟩]⟩,
           ⟨1, "Stage-1_a.todos.md", "Stage-1_a.todos", [⟨"T1", "a"⟩]⟩] 1 [],
          w.stage_number = f.stage_number)
      ∧ (∀ g ∈ [⟨2, "Stage-2_b.todos.md", "Stage-2_b.todos", [⟨"T2", "b"⟩]⟩,
              (⟨1, "Stage-1_a.todos.md", "Stage-1_a.todos", [⟨"T1", "a"⟩]⟩ : StageFile)],
          stage_filtered 1 [] g ≠ [] → f.stage_number ≤ g.stage_number) :=
  claim_C10_stage_locking _ 1 [] (by decide)

/-! ## Tracker actions and issue data

`Action` records the externally visible tracker mutations the pipeline
attempts (each corresponds to one gh CLI command issued by the source).
`IssueData` is the result of `get_issue` (`state` plus assignee logins);
`PullData` is the result of `get_pull` after its field renaming. -/

inductive Action where
  | editAddAssignee (issue : Nat) (name : String)
  | editRemoveAssignee (issue : Nat) (name : String)
  | sleepFor (secs : Nat)
  | createIssue (title : String)
  | commentIssue (num : Nat)
  | closePr (num : Nat) (delete_branch : Bool)
  | prReady (num : Nat)
  | mergePr (num : Nat)
deriving Repr, DecidableEq

/-- The issue or PR number an action addresses, if any. -/
def Action.issueTarget : Action → Option Nat
  | .editAddAssignee n _ => some n
  | .editRemoveAssignee n _ => some n
  | .sleepFor _ => none
  | .createIssue _ => none
  | .commentIssue n => some n
  | .closePr n _ => some n
  | .prReady n => some n
  | .mergePr n => some n

/-- The ordered candidate names attempted by `--add-assignee` commands in
an action trace. -/
def addCandidates (acts : List Action) : List String :=
  acts.filterMap (fun a => match a with
    | .editAddAssignee _ n => some n
    | _ => none)

structure IssueData where
  state : String
  assignees : List String
deriving Repr, DecidableEq

structure PullData where
  pstate : String
  merged_at : Option String
  draft : Bool
deriving Repr, DecidableEq

/-! ## GitHubClient.add_assignees / remove_assignees (source lines 384-419)

`add_assignees` tries the candidate names in order, stopping at the first
success and raising only when every candidate failed (and at least one was
tried); `ok` tells whether the `gh issue edit --add-assignee` command for
a given name succeeds.  `remove_assignees` attempts every candidate and
swallows each failure. -/

def add_assignees_go (issue : Nat) (ok : String → Bool) :
    List String → Bool → Except String Unit × List Action
  | [], hasErr =>
    (if hasErr then .error "cannot assign issue to Copilot" else .ok (), [])
  | n :: rest, _ =>
    if ok n then (.ok (), [.editAddAssignee issue n])
    else
      let r := add_assignees_go issue ok rest true
      (r.fst, .editAddAssignee issue n :: r.snd)

def add_assignees (issue : Nat) (ok : String → Bool) (assignees : List String) :
    Except String Unit × List Action :=
  add_assignees_go issue ok assignees false

def remove_assignees (issue : Nat) (assignees : List String) : List Action :=
  assignees.map (Action.editRemoveAssignee issue)

/-! ## GitHubClient.find_issue_by_todo (source lines 481-513) -/

def find_go (todo_id : String) : List (Nat × String) → Option Nat
  | [] => none
  | (num, title) :: rest =>
    if strContains title ("[" ++ todo_id ++ "]") then some num else find_go todo_id rest

/-- `find_issue_by_todo`: `none` for a blank id, for a failed search query
or for an unparseable result; otherwise the first open issue whose title
contains `[todo_id]`. -/
def find_issue_by_todo (todo_id : String) (search : Option (List (Nat × String))) :
    Option Nat :=
  if todo_id.data.all (fun c => c.isWhitespace) then none
  else
    match search with
    | none => none
    | some issues => find_go todo_id issues

/-! ## Pipeline._reset_issue (source lines 1123-1152) -/

structure ResetEnv where
  issueFetch : Except String IssueData
  addOk : String → Bool

/-- `_reset_issue`: re-fetch the issue; a closed issue skips the reset; if
Copilot is among the (lowercased) assignee logins, unassign every
candidate name and wait 2 seconds; then re-assign through the
`COPILOT_ASSIGNEES` candidate fallback.  A fetch failure or an
all-candidates assignment failure is logged and re-raised. -/
def reset_issue (env : ResetEnv) (issue_num : Nat) : Except String Unit × List Action :=
  match env.issueFetch with
  | .error e => (.error e, [])
  | .ok issue =>
    if issue.state == "closed" then (.ok (), [])
    else
      let pre :=
        if (issue.assignees.map strLower).contains COPILOT_USERNAME.data then
          remove_assignees issue_num COPILOT_ASSIGNEES ++ [Action.sleepFor 2]
        else []
      let r := add_assignees issue_num env.addOk COPILOT_ASSIGNEES
      (r.fst, pre ++ r.snd)

/-! ## Pipeline._ensure_issue (source lines 820-873) -/

structure EnsureEnv where
  search : Option (List (Nat × String))
  getIssue : Except String IssueData
  addExistingOk : String → Bool
  createResult : Except String Nat
  addNewOk : String → Bool

def issue_title (id_full title : String) : String := "[" ++ id_full ++ "] " ++ title

/-- The create-a-fresh-issue tail of `_ensure_issue` (source lines
854-873): create the issue (a creation failure propagates), then assign
Copilot; an assignment failure here is fatal and raises. -/
def ensure_create (id_full title : String) (env : EnsureEnv) :
    Except String Nat × List Action :=
  match env.createResult with
  | .error e => (.error e, [Action.createIssue (issue_title id_full title)])
  | .ok num =>
    let r := add_assignees num env.addNewOk COPILOT_ASSIGNEES
    match r.fst with
    | .ok _ => (.ok num, Action.createIssue (issue_title id_full title) :: r.snd)
    | .error m =>
      (.error ("cannot assign issue to Copilot: " ++ m),
        Action.createIssue (issue_title id_full title) :: r.snd)

/-- `_ensure_issue` for a work item with identifier `id_full` and title
`title` (the dry-run branch returns issue number 0 and is not modelled
further): reuse a found open issue, making sure Copilot is assigned;
fall back to creating a fresh issue when the found issue is not open,
when its details cannot be fetched, or when re-assigning it fails. -/
def ensure_issue (id_full title : String) (env : EnsureEnv) :
    Except String Nat × List Action :=
  match find_issue_by_todo id_full env.search with
  | some existing =>
    (match env.getIssue with
     | .ok d =>
       if d.state == "open" then
         if !((d.assignees.map strLower).contains COPILOT_USERNAME.data) then
           let r := add_assignees existing env.addExistingOk COPILOT_ASSIGNEES
           match r.fst with
           | .ok _ => (.ok existing, r.snd)
           | .error _ =>
             let c := ensure_create id_full title env
             (c.fst, r.snd ++ c.snd)
         else (.ok existing, [])
       else ensure_create id_full title env
     | .error _ => ensure_create id_full title env)
  | none => ensure_create id_full title env

/-! ## Lemmas about the assignment fallback -/

/-- The candidate names actually attempted by the first-success fallback:
all names up to and including the first one that succeeds. -/
def triedNames (ok : String → Bool) : List String → List String
  | [] => []
  | n :: rest => if ok n then [n] else n :: triedNames ok rest

theorem addCandidates_add_go (issue : Nat) (ok : String → Bool) :
    ∀ (l : List String) (b : Bool),
      addCandidates (add_assignees_go issue ok l b).snd = triedNames ok l := by
  intro l
  induction l with
  | nil => intro b; cases b <;> rfl
  | cons n rest ih =>
    intro b
    unfold add_assignees_go triedNames
    by_cases h : ok n = true
    · simp [h, addCandidates]
    · simp only [h, Bool.false_eq_true, if_false, if_neg]
      simp only [addCandidates, List.filterMap_cons] at ih ⊢
      rw [ih true]

theorem add_go_actions (issue : Nat) (ok : String → Bool) :
    ∀ (l : List String) (b : Bool), ∀ a ∈ (add_assignees_go issue ok l b).snd,
      ∃ n, a = Action.editAddAssignee issue n := by
  intro l
  induction l with
  | nil => intro b a ha; cases b <;> cases ha
  | cons n rest ih =>
    intro b a ha
    unfold add_assignees_go at ha
    by_cases h : ok n = true
    · rw [if_pos h] at ha
      rcases List.mem_singleton.mp ha with rfl
      exact ⟨n, rfl⟩
    · rw [if_neg h] at ha
      rcases List.mem_cons.mp ha with rfl | ha'
      · exact ⟨n, rfl⟩
      · exact ih true a ha'

/-! ## C9: the reset controller -/

/-- C9: when the reset controller can fetch an open ticket on which the
agent is currently assigned, it performs exactly: remove the assignment
(every candidate name), wait the fixed 2-second delay, then re-add the
agent through the same ordered `COPILOT_ASSIGNEES` candidate fallback used
at creation (`ensure_create` attempts the identical candidate sequence for
the same per-candidate outcomes); the trace contains no issue creation and
every tracker mutation addresses the same ticket id. -/
theorem claim_C9_reset_controller (env : ResetEnv) (issue : Nat) (d : IssueData)
    (hfetch : env.issueFetch = .ok d)
    (hopen : d.state ≠ "closed")
    (hassigned : (d.assignees.map strLower).contains COPILOT_USERNAME.data = true) :
    (reset_issue env issue).snd
      = remove_assignees issue COPILOT_ASSIGNEES ++ [Action.sleepFor 2]
        ++ (add_assignees issue env.addOk COPILOT_ASSIGNEES).snd
    ∧ (∀ t, Action.createIssue t ∉ (reset_issue env issue).snd)
    ∧ (∀ a ∈ (reset_issue env issue).snd,
        a.issueTarget = some issue ∨ a.issueTarget = none)
    ∧ (∀ (env2 : EnsureEnv) (idf t : String) (m : Nat),
        env2.createResult = .ok m → env2.addNewOk = env.addOk →
        addCandidates (ensure_create idf t env2).snd
          = addCandidates (remove_assignees issue COPILOT_ASSIGNEES ++ [Action.sleepFor 2]
              ++ (add_assignees issue env.addOk COPILOT_ASSIGNEES).snd)) := by
  have hclosed : (d.state == "closed") = false := by
    simp [hopen]
  have htrace : (reset_issue env issue).snd
      = remove_assignees issue COPILOT_ASSIGNEES ++ [Action.sleepFor 2]
        ++ (add_assignees issue env.addOk COPILOT_ASSIGNEES).snd := by
    unfold reset_issue
    rw [hfetch]
    simp only [hclosed, Bool.false_eq_true, if_false, if_neg, hassigned, if_pos]
  have hmem : ∀ a ∈ (reset_issue env issue).snd,
      (∃ n, a = Action.editRemoveAssignee issue n)
        ∨ a = Action.sleepFor 2
        ∨ (∃ n, a = Action.editAddAssignee issue n) := by
    intro a ha
    rw [htrace] at ha
    rcases List.mem_append.mp ha with h1 | h2
    · rcases List.mem_append.mp h1 with h3 | h4
      · obtain ⟨n, _, rfl⟩ := List.mem_map.mp h3
        exact Or.inl ⟨n, rfl⟩
      · exact Or.inr (Or.inl (List.mem_singleton.mp h4))
    · exact Or.inr (Or.inr (add_go_actions issue env.addOk COPILOT_ASSIGNEES false a h2))
  refine ⟨htrace, ?_, ?_, ?_⟩
  · intro t hmemt
    rcases hmem _ hmemt with ⟨n, h⟩ | h | ⟨n, h⟩ <;> cases h
  · intro a ha
    rcases hmem a ha with ⟨n, rfl⟩ | rfl | ⟨n, rfl⟩
    · exact Or.inl rfl
    · exact Or.inr rfl
    · exact Or.inl rfl
  · intro env2 idf t m hc hok
    unfold ensure_create
    rw [hc]
    have hadds : ∀ (num : Nat) (ok : String → Bool),
        addCandidates (add_assignees num ok COPILOT_ASSIGNEES).snd
          = triedNames ok COPILOT_ASSIGNEES :=
      fun num ok => addCandidates_add_go num ok COPILOT_ASSIGNEES false
    have hleft : ∀ res : Except String Unit,
        addCandidates (Action.createIssue (issue_title idf t)
            :: (add_assignees m env2.addNewOk COPILOT_ASSIGNEES).snd)
          = triedNames env2.addNewOk COPILOT_ASSIGNEES := by
      intro _
      simp only [addCandidates, List.filterMap_cons]
      exact hadds m env2.addNewOk
    have hright : addCandidates (remove_assignees issue COPILOT_ASSIGNEES
          ++ [Action.sleepFor 2]
          ++ (add_assignees issue env.addOk COPILOT_ASSIGNEES).snd)
        = triedNames env.addOk COPILOT_ASSIGNEES := by
      simp only [addCandidates, List.filterMap_append]
      have h1 : List.filterMap (fun a => match a with
          | Action.editAddAssignee _ n => some n
          | _ => none) (remove_assignees issue COPILOT_ASSIGNEES) = [] := by
        simp [remove_assignees]
      rw [h1]
      simp only [List.filterMap_cons, List.filterMap_nil, List.nil_append]
      exact hadds issue env.addOk
    cases hres : (add_assignees m env2.addNewOk COPILOT_ASSIGNEES).fst with
    | ok u =>
      simp only [hres]
      rw [hleft (.ok u), hright, hok]
    | error e =>
      simp only [hres]
      rw [hleft (.error e), hright, hok]

/-- Witness for C9 at a concrete input: open ticket 7 with login
"Copilot" assigned; the gh command succeeds for the candidate name
"copilot" only. -/
theorem claim_C9_witness :
    (reset_issue ⟨.ok ⟨"open", ["Copilot"]⟩, fun n => n == "copilot"⟩ 7).snd
      = remove_assignees 7 COPILOT_ASSIGNEES ++ [Action.sleepFor 2]
        ++ (add_assignees 7 (fun n => n == "copilot") COPILOT_ASSIGNEES).snd
    ∧ (∀ t, Action.createIssue t
        ∉ (reset_issue ⟨.ok ⟨"open", ["Copilot"]⟩, fun n => n == "copilot"⟩ 7).snd) :=
  ⟨(claim_C9_reset_controller _ 7 ⟨"open", ["Copilot"]⟩ rfl (by decide) (by decide)).1,
   (claim_C9_reset_controller _ 7 ⟨"open", ["Copilot"]⟩ rfl (by decide) (by decide)).2.1⟩

/-! ## C6: ticket reuse in _ensure_issue -/

theorem find_go_mem (todo_id : String) :
    ∀ (issues : List (Nat × String)) (n : Nat), find_go todo_id issues = some n →
      ∃ t, (n, t) ∈ issues ∧ strContains t ("[" ++ todo_id ++ "]") = true := by
  intro issues
  induction issues with
  | nil => intro n h; cases h
  | cons p rest ih =>
    intro n h
    unfold find_go at h
    by_cases hp : strContains p.snd ("[" ++ todo_id ++ "]") = true
    · rw [if_pos hp] at h
      cases h
      exact ⟨p.snd, List.mem_cons_self _ _, hp⟩
    · rw [if_neg hp] at h
      obtain ⟨t, hmem, ht⟩ := ih n h
      exact ⟨t, List.mem_cons_of_mem p hmem, ht⟩

theorem find_go_some (todo_id : String) :
    ∀ issues : List (Nat × String),
      (∃ p ∈ issues, strContains p.snd ("[" ++ todo_id ++ "]") = true) →
      ∃ n, find_go todo_id issues = some n := by
  intro issues
  induction issues with
  | nil => intro ⟨p, hp, _⟩; cases hp
  | cons q rest ih =>
    intro ⟨p, hp, hmatch⟩
    unfold find_go
    by_cases hq : strContains q.snd ("[" ++ todo_id ++ "]") = true
    · exact ⟨q.fst, by rw [if_pos hq]⟩
    · rcases List.mem_cons.mp hp with rfl | hp'
      · exact absurd hmatch hq
      · obtain ⟨n, hn⟩ := ih ⟨p, hp', hmatch⟩
        exact ⟨n, by rw [if_neg hq]; exact hn⟩

theorem ensure_create_creates (id_full title : String) (env : EnsureEnv) :
    Action.createIssue (issue_title id_full title) ∈ (ensure_create id_full title env).snd := by
  unfold ensure_create
  cases hc : env.createResult with
  | error e => simp
  | ok num =>
    cases ha : (add_assignees num env.addNewOk COPILOT_ASSIGNEES).fst with
    | ok u => simp [ha]
    | error m => simp [ha]

/-- C6: ticket acquisition.  (find) A successful open-issue search
containing a title that embeds `[id_full]` makes `find_issue_by_todo`
return the number of the first such issue.  (a) A found issue that is open
with Copilot already among its lowercased assignee logins is reused as-is:
its id is returned, with no tracker mutation at all.  (b) A found open
issue without Copilot assigned is reused after a successful re-assignment,
and no fresh ticket is created.  (c) A found issue whose fetched state is
not open, and (d) a found issue whose details cannot be fetched, both fall
back to creating a fresh ticket. -/
theorem claim_C6_ticket_reuse (id_full title : String) (env : EnsureEnv) :
    (∀ issues, env.search = some issues →
      (∃ p ∈ issues, strContains p.snd ("[" ++ id_full ++ "]") = true) →
      (id_full.data.all (fun c => c.isWhitespace)) = false →
      ∃ n t, find_issue_by_todo id_full env.search = some n
        ∧ (n, t) ∈ issues ∧ strContains t ("[" ++ id_full ++ "]") = true)
    ∧ (∀ ex d, find_issue_by_todo id_full env.search = some ex →
        env.getIssue = .ok d → d.state = "open" →
        (d.assignees.map strLower).contains COPILOT_USERNAME.data = true →
        ensure_issue id_full title env = (.ok ex, []))
    ∧ (∀ ex d, find_issue_by_todo id_full env.search = some ex →
        env.getIssue = .ok d → d.state = "open" →
        (d.assignees.map strLower).contains COPILOT_USERNAME.data = false →
        (add_assignees ex env.addExistingOk COPILOT_ASSIGNEES).fst = .ok () →
        ensure_issue id_full title env
          = (.ok ex, (add_assignees ex env.addExistingOk COPILOT_ASSIGNEES).snd)
          ∧ ∀ t, Action.createIssue t ∉ (ensure_issue id_full title env).snd)
    ∧ (∀ ex d, find_issue_by_todo id_full env.search = some ex →
        env.getIssue = .ok d → d.state ≠ "open" →
        ensure_issue id_full title env = ensure_create id_full title env
          ∧ Action.createIssue (issue_title id_full title)
              ∈ (ensure_issue id_full title env).snd)
    ∧ (∀ ex e, find_issue_by_todo id_full env.search = some ex →
        env.getIssue = .error e →
        ensure_issue id_full title env = ensure_create id_full title env
          ∧ Action.createIssue (issue_title id_full title)
              ∈ (ensure_issue id_full title env).snd) := by
  refine ⟨?_, ?_, ?_, ?_, ?_⟩
  · intro issues hsearch hex hblank
    obtain ⟨n, hn⟩ := find_go_some id_full issues hex
    obtain ⟨t, hmem, ht⟩ := find_go_mem id_full issues n hn
    refine ⟨n, t, ?_, hmem, ht⟩
    unfold find_issue_by_todo
    rw [hblank, hsearch]
    simpa using hn
  · intro ex d hfind hget hopen hassigned
    unfold ensure_issue
    simp only [hfind, hget]
    rw [hopen, hassigned]
    simp
  · intro ex d hfind hget hopen hno hadd
    have hmain : ensure_issue id_full title env
        = (.ok ex, (add_assignees ex env.addExistingOk COPILOT_ASSIGNEES).snd) := by
      unfold ensure_issue
      simp only [hfind, hget]
      rw [hopen, hno]
      simp [hadd]
    refine ⟨hmain, ?_⟩
    intro t hmemt
    rw [hmain] at hmemt
    obtain ⟨n, hn⟩ := add_go_actions ex env.addExistingOk COPILOT_ASSIGNEES false _ hmemt
    cases hn
  · intro ex d hfind hget hopen
    have hstate : (d.state == "open") = false := by simp [hopen]
    have hmain : ensure_issue id_full title env = ensure_create id_full title env := by
      unfold ensure_issue
      simp [hfind, hget, hstate]
    exact ⟨hmain, by rw [hmain]; exact ensure_create_creates id_full title env⟩
  · intro ex e hfind hget
    have hmain : ensure_issue id_full title env = ensure_create id_full title env := by
      unfold ensure_issue
      simp [hfind, hget]
    exact ⟨hmain, by rw [hmain]; exact ensure_create_creates id_full title env⟩

/-- Witness for C6: item `id-123` has a matching open issue number 5 with
Copilot not yet assigned; acquisition returns 5 after assigning and does
not create a ticket. -/
theorem claim_C6_witness :
    ensure_issue "id-123" "T"
        ⟨some [(5, "[id-123] do thing")], .ok ⟨"open", []⟩,
          fun n => n == "copilot", .ok 9, fun _ => true⟩
      = (.ok 5, (add_assignees 5 (fun n => n == "copilot") COPILOT_ASSIGNEES).snd) :=
  ((claim_C6_ticket_reuse "id-123" "T"
      ⟨some [(5, "[id-123] do thing")], .ok ⟨"open", []⟩,
        fun n => n == "copilot", .ok 9, fun _ => true⟩).2.2.1
    5 ⟨"open", []⟩ (by decide) rfl rfl (by decide) (by rfl)).1

/-! ## Pipeline.run (source lines 757-818) and the main driver loop (1227-1273)

One whole attempt at a work item (`_ensure_issue` followed by
`_wait_and_merge`) either returns normally or raises; the outcome of
attempt number `a` (counted from 1) is supplied by an oracle: `none` for
success, `some err` for an exception with message `err`. -/

inductive ItemOutcome where
  | success
  | failedRec (err : String)
deriving Repr, DecidableEq

/-- The per-item retry loop of `Pipeline.run` (source lines 791-809), with
`fuel` attempts remaining: a success breaks out; a failure on the last
attempt is recorded (not raised); otherwise the loop sleeps
`base_retry_wait * 2 ^ (attempt - 1)` seconds and tries again.  The
returned list is the sequence of waits slept.  (`fuel = 0` is unreachable:
the caller passes `max 1 task_max_retries`.) -/
def attempt_go (base_retry_wait : Nat) (oracle : Nat → Option String) :
    Nat → Nat → ItemOutcome × List Nat
  | _, 0 => (.success, [])
  | attempt, fuel + 1 =>
    match oracle attempt with
    | none => (.success, [])
    | some e =>
      if fuel == 0 then (.failedRec e, [])
      else
        let w := base_retry_wait * 2 ^ (attempt - 1)
        let r := attempt_go base_retry_wait oracle (attempt + 1) fuel
        (r.fst, w :: r.snd)

def process_item (max_task_retries base_retry_wait : Nat) (oracle : Nat → Option String) :
    ItemOutcome × List Nat :=
  attempt_go base_retry_wait oracle 1 max_task_retries

/-- `Pipeline.run`: process every queued item in order under the retry
policy (with `max(1, ...)` applied to the configured limits as in source
lines 776-777) and record each item's outcome.  The function is total:
item failures are collected, never raised. -/
def pipeline_run (task_max_retries task_retry_wait : Nat)
    (items : List (String × (Nat → Option String))) : List (String × ItemOutcome) :=
  items.map (fun it =>
    (it.fst, (process_item (max 1 task_max_retries) (max 1 task_retry_wait) it.snd).fst))

def failure_entry (p : String × ItemOutcome) : Option (String × String) :=
  match p.snd with
  | .success => none
  | .failedRec e => some (p.fst, e)

/-- The `failed_items` list reported at the end of `Pipeline.run` (source
lines 779, 808, 811-818). -/
def run_failed_items (task_max_retries task_retry_wait : Nat)
    (items : List (String × (Nat → Option String))) : List (String × String) :=
  (pipeline_run task_max_retries task_retry_wait items).filterMap failure_entry

inductive LoopStep where
  | breakLoop
  | continueLoop
deriving Repr, DecidableEq

/-- One iteration of the `while True` loop in `main` (source lines
1228-1268): with no pending work, a non-dry run sleeps and rescans while a
dry run breaks (and `main` then returns exit code 0); with pending work,
`pipeline.run` executes to completion (collecting the failure list) and a
non-dry run continues with the next scan.  Nothing in the loop consults
the failure list for control flow or for the exit code. -/
def main_iter (dry_run : Bool) (items : List (String × (Nat → Option String)))
    (task_max_retries task_retry_wait : Nat) : LoopStep × List (String × String) :=
  if items.isEmpty then
    (if !dry_run then .continueLoop else .breakLoop, [])
  else
    (if dry_run then .breakLoop else .continueLoop,
      run_failed_items task_max_retries task_retry_wait items)

theorem failure_entry_eq (a : String) (o : ItemOutcome) (id e : String) :
    failure_entry (a, o) = some (id, e) ↔ a = id ∧ o = .failedRec e := by
  cases o <;> simp [failure_entry]

theorem attempt_go_all_fail (baseW : Nat) (oracle : Nat → Option String)
    (err : Nat → String) (hfail : ∀ a, oracle a = some (err a)) :
    ∀ fuel attempt, 1 ≤ fuel →
      (attempt_go baseW oracle attempt fuel).fst = .failedRec (err (attempt + fuel - 1)) := by
  intro fuel
  induction fuel with
  | zero => intro attempt h; cases h
  | succ n ih =>
    intro attempt _
    unfold attempt_go
    simp only [hfail attempt]
    by_cases hn : (n == 0) = true
    · have : n = 0 := by simpa using hn
      subst this
      simp
    · rw [if_neg hn]
      have hn' : 1 ≤ n := by
        rcases Nat.eq_zero_or_pos n with h | h
        · exact absurd (by simpa using h) hn
        · exact h
      have := ih (attempt + 1) hn'
      have harg : attempt + 1 + n - 1 = attempt + (n + 1) - 1 := by omega
      rw [harg] at this
      simpa using this

theorem attempt_go_waits (baseW : Nat) (oracle : Nat → Option String) :
    ∀ fuel attempt, 1 ≤ attempt →
      ∀ k w, ((attempt_go baseW oracle attempt fuel).snd).get? k = some w →
        w = baseW * 2 ^ (attempt - 1 + k) := by
  intro fuel
  induction fuel with
  | zero => intro attempt _ k w h; cases h
  | succ n ih =>
    intro attempt ha k w h
    unfold attempt_go at h
    cases ho : oracle attempt with
    | none => rw [ho] at h; cases h
    | some e =>
      simp only [ho] at h
      by_cases hn : (n == 0) = true
      · rw [if_pos hn] at h; cases h
      · rw [if_neg hn] at h
        cases k with
        | zero =>
          simp only [List.get?] at h
          cases h
          rfl
        | succ k' =>
          simp only [List.get?] at h
          have := ih (attempt + 1) (by omega) k' w h
          rw [this]
          have harg : attempt + 1 - 1 + k' = attempt - 1 + (k' + 1) := by omega
          rw [harg]

/-- C5: under the work-item-level retry policy, the wait recorded at index
`k` (the sleep between attempt `k+1` and attempt `k+2`, attempts counted
from 1) is `base_wait * 2 ^ k`; with `base_wait = 300` and
`max_attempts = 3` an always-failing item waits 300s then 600s and its
outcome is recorded as a failure value — `Pipeline.run` returns it in the
failure list instead of raising. -/
theorem claim_C5_backoff :
    (∀ (max_task_retries base_wait : Nat) (oracle : Nat → Option String) (k w : Nat),
      ((process_item max_task_retries base_wait oracle).snd).get? k = some w →
      w = base_wait * 2 ^ k)
    ∧ process_item 3 300 (fun _ => some "boom") = (.failedRec "boom", [300, 600])
    ∧ run_failed_items 3 300 [("X", fun _ => some "boom")] = [("X", "boom")] := by
  refine ⟨?_, rfl, rfl⟩
  intro maxR baseW oracle k w h
  have := attempt_go_waits baseW oracle maxR 1 (le_refl 1) k w h
  simpa using this

/-- Witness for C5: the second recorded wait of the concrete 3-attempt,
300s-base scenario is `300 * 2 ^ 1 = 600`. -/
theorem claim_C5_witness :
    (600 : Nat) = 300 * 2 ^ 1 :=
  claim_C5_backoff.1 3 300 (fun _ => some "boom") 1 600 rfl

/-- C4 (amended): when a WorkItem exhausts its whole-attempt retries, the
batch runner records the (identifier, error) pair — the final attempt's
error — continues with every remaining item (the outcome list covers the
queue in order), and reports the aggregate failure list as a value rather
than raising; the non-dry-run main loop then continues scanning for work
instead of exiting, so the process exit status never reflects the per-item
failure list (the itemized list is only logged). -/
theorem claim_C4_batch_failure_reporting :
    (∀ maxR baseW (items : List (String × (Nat → Option String))),
      (pipeline_run maxR baseW items).map Prod.fst = items.map Prod.fst)
    ∧ (∀ maxR baseW (items : List (String × (Nat → Option String))) (id e : String),
        (id, e) ∈ run_failed_items maxR baseW items ↔
          ∃ it ∈ items, it.fst = id
            ∧ (process_item (max 1 maxR) (max 1 baseW) it.snd).fst = .failedRec e)
    ∧ (∀ maxR baseW (oracle : Nat → Option String) (err : Nat → String), 1 ≤ maxR →
        (∀ a, oracle a = some (err a)) →
        (process_item maxR baseW oracle).fst = .failedRec (err maxR))
    ∧ (∀ (items : List (String × (Nat → Option String))) maxR baseW,
        (main_iter false items maxR baseW).fst = LoopStep.continueLoop) := by
  refine ⟨?_, ?_, ?_, ?_⟩
  · intro maxR baseW items
    simp [pipeline_run, Function.comp]
  · intro maxR baseW items id e
    unfold run_failed_items pipeline_run
    rw [List.mem_filterMap]
    constructor
    · rintro ⟨p, hp, hent⟩
      obtain ⟨it, hit, rfl⟩ := List.mem_map.mp hp
      obtain ⟨hid, hout⟩ := (failure_entry_eq _ _ _ _).mp hent
      exact ⟨it, hit, hid, hout⟩
    · rintro ⟨it, hit, hid, hout⟩
      refine ⟨(it.fst, (process_item (max 1 maxR) (max 1 baseW) it.snd).fst),
        List.mem_map.mpr ⟨it, hit, rfl⟩, ?_⟩
      exact (failure_entry_eq _ _ _ _).mpr ⟨hid, hout⟩
  · intro maxR baseW oracle err hmax hfail
    unfold process_item
    have := attempt_go_all_fail baseW oracle err hfail maxR 1 hmax
    have harg : 1 + maxR - 1 = maxR := by omega
    rw [harg] at this
    exact this
  · intro items maxR baseW
    unfold main_iter
    by_cases h : items.isEmpty = true <;> simp [h]

/-- Counterexample to C4 as stated: with one work item whose every attempt
fails, the failure list is nonempty, yet the (non-dry-run) main loop step
continues scanning rather than breaking out — `main`'s only loop exit,
after which it returns 0 — so the process does not exit with a non-zero
status carrying the failure list; the list is only logged. -/
theorem claim_C4_counterexample :
    run_failed_items 3 300 [("S01-TODO-01", fun _ => some "boom")]
      = [("S01-TODO-01", "boom")]
    ∧ (main_iter false [("S01-TODO-01", fun _ => some "boom")] 3 300).fst
        = LoopStep.continueLoop
    ∧ (main_iter false [("S01-TODO-01", fun _ => some "boom")] 3 300).fst
        ≠ LoopStep.breakLoop := by
  refine ⟨rfl, rfl, ?_⟩
  intro h
  cases h

/-- Witness for C4 at a concrete input: an always-failing item under the
default 3-attempt policy is recorded as failed with the final error. -/
theorem claim_C4_witness :
    (process_item 3 300 (fun _ => some "err")).fst = ItemOutcome.failedRec "err" :=
  claim_C4_batch_failure_reporting.2.2.1 3 300 (fun _ => some "err") (fun _ => "err")
    (by decide) (fun _ => rfl)

/-! ## Pipeline._wait_and_merge (source lines 911-1121)

The monitoring loop body, modelled as one step function over an explicit
state.  `MonState` holds the loop's local variables; `TickEnv` supplies
one iteration's oracle inputs: the tick's timestamp (all `time.time()`
reads within one iteration are merged into `now`), the outcomes of
`get_issue`, `latest_pr_from_timeline` (whose defensive `try` block is
kept even though the call cannot raise), `get_pull`, the
`check_copilot_signal` verdict, `merge_pull`, the post-merge-failure
re-fetch, and the environment for a possible `_reset_issue` call.
`warnNoPr` reports the warning logged when the issue closes with no
tracked PR.  The `comment_issue`/`close_pr` calls preceding a reset are
wrapped in `try/except: pass` in the source, so their own failures are
invisible; the actions record the attempts. -/

structure MonArgs where
  issue_max_wait : Int
  poll_interval : Nat
deriving Repr, DecidableEq

structure MonState where
  reset_count : Nat
  wait_start_time : Int
  pr_create_time : Option Int
  current_pr : Option Nat
  issue_start_time : Int
deriving Repr, DecidableEq

structure TickEnv where
  now : Int
  issueFetch : Except String IssueData
  prFetch : Except String (Option Nat)
  pullFetch : Except String PullData
  signal : Bool
  mergeOk : Bool
  recheckFetch : Except String PullData
  resetEnv : ResetEnv

inductive FailReason where
  | totalTimeout
  | waitPrResetLimit
  | prClosedResetLimit
  | mergeFailResetLimit
  | prTimeoutResetLimit
  | resetError (msg : String)
deriving Repr, DecidableEq

inductive TickResult where
  | merged
  | raised (r : FailReason)
  | next (st : MonState)
deriving Repr, DecidableEq

structure TickOut where
  result : TickResult
  didReset : Bool
  warnNoPr : Bool
  actions : List Action
deriving Repr, DecidableEq

/-- The tracked-PR update at source lines 975-979: a newly seen PR number
becomes `current_pr` and starts its age clock. -/
def track_pr (st : MonState) (pr_num : Nat) (now : Int) : MonState :=
  if st.current_pr ≠ some pr_num then
    { st with current_pr := some pr_num, pr_create_time := some now }
  else st

/-- The post-merge-failure "already merged after all?" re-check (source
lines 1032-1038): a failed re-fetch counts as not merged. -/
def recheck_merged (env : TickEnv) : Bool :=
  match env.recheckFetch with
  | .ok pr2 => pr2.merged_at.isSome
  | .error _ => false

/-- Whether the `_reset_issue` call for this environment raises. -/
def reset_raises (env : TickEnv) (issue_num : Nat) : Bool :=
  match (reset_issue env.resetEnv issue_num).fst with
  | .ok _ => false
  | .error _ => true

/-- The shared shape of the four reset sites in `_wait_and_merge`: first
the reset-budget check (raising `reason` at the limit), then the
best-effort annotate/close actions `cc` (only the merge-failure and
age-timeout sites pass any), then `_reset_issue` (whose failure
propagates), then the post-reset state `st'` and the fixed
`RESET_WAIT_TIME` sleep before the `continue`. -/
def do_reset (renv : ResetEnv) (issue_num : Nat) (reason : FailReason)
    (st' : MonState) (count : Nat) (cc : List Action) : TickOut :=
  if count ≥ DEFAULT_MAX_PR_RESETS then ⟨.raised reason, false, false, []⟩
  else
    let r := reset_issue renv issue_num
    match r.fst with
    | .error m => ⟨.raised (.resetError m), false, false, cc ++ r.snd⟩
    | .ok _ => ⟨.next st', true, false, cc ++ r.snd ++ [Action.sleepFor RESET_WAIT_TIME]⟩

/-- One iteration of the `while True` loop of `_wait_and_merge` (source
lines 926-1121), faithful to the source's order of checks: absolute
timeout; issue fetch (failure: short sleep and retry); closed issue is
success; timeline query (failure: short sleep and retry); with no PR, the
PR-wait window check and possible reset; with a PR, track it, fetch it
(failure: short sleep and retry), then merged / closed-unmerged /
completion signal (promote, then merge, with a re-check and a reset on
failure) / age timeout, in that order; otherwise sleep one poll
interval. -/
def tickStep (args : MonArgs) (issue_num : Nat) (st : MonState) (env : TickEnv) : TickOut :=
  if env.now - st.issue_start_time ≥ args.issue_max_wait then
    ⟨.raised .totalTimeout, false, false, []⟩
  else
    match env.issueFetch with
    | .error _ => ⟨.next st, false, false, [Action.sleepFor RETRY_SLEEP_SHORT]⟩
    | .ok issue =>
      if issue.state == "closed" then
        ⟨.merged, false, st.current_pr.isNone, []⟩
      else
        match env.prFetch with
        | .error _ => ⟨.next st, false, false, [Action.sleepFor RETRY_SLEEP_SHORT]⟩
        | .ok none =>
          if env.now - st.wait_start_time > PR_WAIT_TIMEOUT then
            do_reset env.resetEnv issue_num .waitPrResetLimit
              { st with
                  reset_count := st.reset_count + 1,
                  wait_start_time := env.now }
              st.reset_count []
          else ⟨.next st, false, false, [Action.sleepFor args.poll_interval]⟩
        | .ok (some pr_num) =>
          let st1 := track_pr st pr_num env.now
          match env.pullFetch with
          | .error _ => ⟨.next st1, false, false, [Action.sleepFor RETRY_SLEEP_SHORT]⟩
          | .ok pr =>
            if pr.merged_at.isSome then ⟨.merged, false, false, []⟩
            else if pr.pstate == "closed" then
              do_reset env.resetEnv issue_num .prClosedResetLimit
                { st1 with
                    reset_count := st1.reset_count + 1,
                    current_pr := none,
                    pr_create_time := none,
                    wait_start_time := env.now }
                st1.reset_count []
            else if env.signal then
              let pre := [Action.prReady pr_num, Action.sleepFor PR_READY_WAIT,
                Action.mergePr pr_num]
              if env.mergeOk then ⟨.merged, false, false, pre⟩
              else if recheck_merged env then ⟨.merged, false, false, pre⟩
              else
                let d := do_reset env.resetEnv issue_num .mergeFailResetLimit
                  { st1 with
                      reset_count := st1.reset_count + 1,
                      current_pr := none,
                      pr_create_time := none,
                      wait_start_time := env.now }
                  st1.reset_count
                  [Action.commentIssue pr_num, Action.closePr pr_num true]
                ⟨d.result, d.didReset, d.warnNoPr, pre ++ d.actions⟩
            else
              match st1.pr_create_time with
              | some t =>
                if env.now - t > PR_TIMEOUT then
                  do_reset env.resetEnv issue_num .prTimeoutResetLimit
                    { st1 with
                        reset_count := st1.reset_count + 1,
                        current_pr := none,
                        pr_create_time := none,
                        wait_start_time := env.now }
                    st1.reset_count
                    [Action.commentIssue pr_num, Action.closePr pr_num true]
                else ⟨.next st1, false, false, [Action.sleepFor args.poll_interval]⟩
              | none => ⟨.next st1, false, false, [Action.sleepFor args.poll_interval]⟩

/-- The monitoring run: iterate `tickStep` over the per-tick environments,
stopping at the first terminal (merged or raised) outcome. -/
def monitor_trace (args : MonArgs) (issue_num : Nat) :
    MonState → List TickEnv → List TickOut
  | _, [] => []
  | st, e :: es =>
    let o := tickStep args issue_num st e
    match o.result with
    | .next st' => o :: monitor_trace args issue_num st' es
    | _ => [o]

/-- Specification-side reset-trigger predicate, written from the spec's
own list (testable property 2 of the spec): on a tick that reaches the
monitoring logic, a reset fires when no change-request exists past the
wait window, or the change-request is closed without merge, or the
completion signal's merge fails with the change-request not actually
merged, or the change-request (signal-less) aged past its timeout. -/
def specResetTrigger (args : MonArgs) (st : MonState) (env : TickEnv) : Bool :=
  decide (env.now - st.issue_start_time < args.issue_max_wait) &&
  (match env.issueFetch with
   | .error _ => false
   | .ok issue =>
     issue.state != "closed" &&
     (match env.prFetch with
      | .error _ => false
      | .ok none => decide (env.now - st.wait_start_time > PR_WAIT_TIMEOUT)
      | .ok (some pr_num) =>
        match env.pullFetch with
        | .error _ => false
        | .ok pr =>
          pr.merged_at.isNone &&
          (pr.pstate == "closed"
            || (env.signal && !env.mergeOk && !recheck_merged env)
            || (!env.signal &&
                (match (track_pr st pr_num env.now).pr_create_time with
                 | some t => decide (env.now - t > PR_TIMEOUT)
                 | none => false)))))

theorem track_pr_reset_count (st : MonState) (pr_num : Nat) (now : Int) :
    (track_pr st pr_num now).reset_count = st.reset_count := by
  unfold track_pr
  split <;> rfl

theorem do_reset_cases (renv : ResetEnv) (issue : Nat) (reason : FailReason)
    (st' : MonState) (count : Nat) (cc : List Action) :
    (count ≥ DEFAULT_MAX_PR_RESETS
      ∧ do_reset renv issue reason st' count cc = ⟨.raised reason, false, false, []⟩)
    ∨ (count < DEFAULT_MAX_PR_RESETS
      ∧ ∃ m, (reset_issue renv issue).fst = .error m
        ∧ do_reset renv issue reason st' count cc
            = ⟨.raised (.resetError m), false, false, cc ++ (reset_issue renv issue).snd⟩)
    ∨ (count < DEFAULT_MAX_PR_RESETS
      ∧ (reset_issue renv issue).fst = .ok ()
      ∧ do_reset renv issue reason st' count cc
          = ⟨.next st', true, false,
              cc ++ (reset_issue renv issue).snd ++ [Action.sleepFor RESET_WAIT_TIME]⟩) := by
  unfold do_reset
  split_ifs with h
  · exact Or.inl ⟨h, rfl⟩
  · cases hr : (reset_issue renv issue).fst with
    | error m => exact Or.inr (Or.inl ⟨by omega, m, rfl, by simp [hr]⟩)
    | ok u =>
      cases u
      exact Or.inr (Or.inr ⟨by omega, rfl, by simp [hr]⟩)

theorem monitor_trace_dropLast (args : MonArgs) (issue_num : Nat) :
    ∀ (envs : List TickEnv) (st : MonState),
      ∀ o ∈ (monitor_trace args issue_num st envs).dropLast,
        ∃ st', o.result = TickResult.next st' := by
  intro envs
  induction envs with
  | nil => intro st o ho; cases ho
  | cons e es ih =>
    intro st o ho
    simp only [monitor_trace] at ho
    cases hres : (tickStep args issue_num st e).result with
    | next st' =>
      simp only [hres] at ho
      cases htr : monitor_trace args issue_num st' es with
      | nil => simp only [htr, List.dropLast_single] at ho; cases ho
      | cons b bs =>
        simp only [htr] at ho
        rw [List.dropLast_cons₂] at ho
        rcases List.mem_cons.mp ho with rfl | ho'
        · exact ⟨st', hres⟩
        · exact ih st' o (by rw [htr]; exact ho')
    | merged => simp only [hres] at ho; cases ho
    | raised r => simp only [hres] at ho; cases ho

/-- The C1 per-tick properties: every completed reset bumps the reset
count by exactly one and a tick without a reset leaves it unchanged; a
terminal tick performs no reset; an exception is raised exactly when the
absolute monitoring timeout is hit, or a reset trigger fires with the
reset budget already exhausted, or a reset trigger fires and the reset
itself raises; and a reset completes exactly when a trigger fires with
budget remaining and a working reset. -/
def C1Props (a : MonArgs) (i : Nat) (st : MonState) (e : TickEnv) : Prop :=
  (∀ st', (tickStep a i st e).result = TickResult.next st' →
      st'.reset_count = st.reset_count + ((tickStep a i st e).didReset).toNat)
  ∧ (((tickStep a i st e).result = TickResult.merged
      ∨ ∃ r, (tickStep a i st e).result = TickResult.raised r) →
      (tickStep a i st e).didReset = false)
  ∧ ((∃ r, (tickStep a i st e).result = TickResult.raised r) ↔
      (e.now - st.issue_start_time ≥ a.issue_max_wait
        ∨ (specResetTrigger a st e = true
            ∧ (st.reset_count ≥ DEFAULT_MAX_PR_RESETS ∨ reset_raises e i = true))))
  ∧ ((tickStep a i st e).didReset = true ↔
      (specResetTrigger a st e = true ∧ st.reset_count < DEFAULT_MAX_PR_RESETS
        ∧ reset_raises e i = false))

theorem c1_of_next (a : MonArgs) (i : Nat) (st : MonState) (e : TickEnv) (s : MonState)
    (h0 : ¬ (e.now - st.issue_start_time ≥ a.issue_max_wait))
    (hres : (tickStep a i st e).result = TickResult.next s)
    (hdr : (tickStep a i st e).didReset = false)
    (ht : specResetTrigger a st e = false)
    (hcount : s.reset_count = st.reset_count) : C1Props a i st e := by
  refine ⟨?_, ?_, ?_, ?_⟩
  · intro st' hh
    rw [hres] at hh
    cases hh
    rw [hdr, hcount]
    rfl
  · intro _; exact hdr
  · constructor
    · rintro ⟨r, hr⟩
      rw [hres] at hr
      cases hr
    · rintro (h | ⟨hf, _⟩)
      · exact absurd h h0
      · rw [ht] at hf; cases hf
  · rw [hdr]
    constructor
    · intro h; cases h
    · rintro ⟨hf, _⟩
      rw [ht] at hf; cases hf

theorem c1_of_merged (a : MonArgs) (i : Nat) (st : MonState) (e : TickEnv)
    (h0 : ¬ (e.now - st.issue_start_time ≥ a.issue_max_wait))
    (hres : (tickStep a i st e).result = TickResult.merged)
    (hdr : (tickStep a i st e).didReset = false)
    (ht : specResetTrigger a st e = false) : C1Props a i st e := by
  refine ⟨?_, ?_, ?_, ?_⟩
  · intro st' hh
    rw [hres] at hh
    cases hh
  · intro _; exact hdr
  · constructor
    · rintro ⟨r, hr⟩
      rw [hres] at hr
      cases hr
    · rintro (h | ⟨hf, _⟩)
      · exact absurd h h0
      · rw [ht] at hf; cases hf
  · rw [hdr]
    constructor
    · intro h; cases h
    · rintro ⟨hf, _⟩
      rw [ht] at hf; cases hf

theorem c1_of_timeout (a : MonArgs) (i : Nat) (st : MonState) (e : TickEnv)
    (h0 : e.now - st.issue_start_time ≥ a.issue_max_wait)
    (hres : (tickStep a i st e).result = TickResult.raised FailReason.totalTimeout)
    (hdr : (tickStep a i st e).didReset = false)
    (ht : specResetTrigger a st e = false) : C1Props a i st e := by
  refine ⟨?_, ?_, ?_, ?_⟩
  · intro st' hh
    rw [hres] at hh
    cases hh
  · intro _; exact hdr
  · constructor
    · intro _; exact Or.inl h0
    · intro _; exact ⟨FailReason.totalTimeout, hres⟩
  · rw [hdr]
    constructor
    · intro h; cases h
    · rintro ⟨hf, _⟩
      rw [ht] at hf; cases hf

theorem c1_of_trigger (a : MonArgs) (i : Nat) (st : MonState) (e : TickEnv)
    (reason : FailReason) (s' : MonState) (cc : List Action) (count : Nat)
    (hc : count = st.reset_count)
    (h0 : ¬ (e.now - st.issue_start_time ≥ a.issue_max_wait))
    (hcount : s'.reset_count = st.reset_count + 1)
    (hres : (tickStep a i st e).result
      = (do_reset e.resetEnv i reason s' count cc).result)
    (hdr : (tickStep a i st e).didReset
      = (do_reset e.resetEnv i reason s' count cc).didReset)
    (ht : specResetTrigger a st e = true) : C1Props a i st e := by
  subst hc
  rcases do_reset_cases e.resetEnv i reason s' st.reset_count cc with
    ⟨hge, hd⟩ | ⟨hlt, m, hm, hd⟩ | ⟨hlt, hok, hd⟩
  · rw [hd] at hres hdr
    refine ⟨?_, ?_, ?_, ?_⟩
    · intro st' hh
      rw [hres] at hh
      cases hh
    · intro _; exact hdr
    · constructor
      · intro _; exact Or.inr ⟨ht, Or.inl hge⟩
      · intro _; exact ⟨reason, hres⟩
    · rw [hdr]
      constructor
      · intro h; cases h
      · rintro ⟨_, hlt', _⟩
        exact absurd hlt' (Nat.not_lt.mpr hge)
  · have hrr : reset_raises e i = true := by simp [reset_raises, hm]
    rw [hd] at hres hdr
    refine ⟨?_, ?_, ?_, ?_⟩
    · intro st' hh
      rw [hres] at hh
      cases hh
    · intro _; exact hdr
    · constructor
      · intro _; exact Or.inr ⟨ht, Or.inr hrr⟩
      · intro _; exact ⟨FailReason.resetError m, hres⟩
    · rw [hdr]
      constructor
      · intro h; cases h
      · rintro ⟨_, _, hrf⟩
        rw [hrr] at hrf; cases hrf
  · have hrr : reset_raises e i = false := by simp [reset_raises, hok]
    rw [hd] at hres hdr
    refine ⟨?_, ?_, ?_, ?_⟩
    · intro st' hh
      rw [hres] at hh
      cases hh
      rw [hdr, hcount]
      rfl
    · rintro (h | ⟨r, h⟩) <;> (rw [hres] at h; cases h)
    · constructor
      · rintro ⟨r, hr⟩
        rw [hres] at hr
        cases hr
      · rintro (h | ⟨_, hge | hrt⟩)
        · exact absurd h h0
        · exact absurd hlt (Nat.not_lt.mpr hge)
        · rw [hrr] at hrt; cases hrt
    · rw [hdr]
      exact ⟨fun _ => ⟨ht, hlt, hrr⟩, fun _ => rfl⟩

/-- C1 (amended): during monitoring of one work item's ticket, every
completed Reset increments the in-memory reset count by exactly 1 (and a
tick without a reset leaves it unchanged); no Reset happens on a tick with
a terminal Merged or raised outcome, and the monitoring run stops at the
first terminal outcome, so no Reset follows it; and an exception
terminates the monitoring exactly when the absolute monitoring timeout is
exceeded, or a reset trigger fires while the reset count has already
reached the configured maximum, or a reset trigger fires and the reset
operation itself raises. -/
theorem claim_C1_reset_accounting (args : MonArgs) (issue_num : Nat) (st : MonState)
    (env : TickEnv) :
    C1Props args issue_num st env
    ∧ (∀ (envs : List TickEnv) (st0 : MonState),
        ∀ o ∈ (monitor_trace args issue_num st0 envs).dropLast,
          ∃ st', o.result = TickResult.next st') := by
  refine ⟨?_, monitor_trace_dropLast args issue_num⟩
  by_cases h0 : env.now - st.issue_start_time ≥ args.issue_max_wait
  · have hlt : ¬ (env.now - st.issue_start_time < args.issue_max_wait) := by omega
    exact c1_of_timeout args issue_num st env h0
      (by simp [tickStep, h0]) (by simp [tickStep, h0])
      (by simp [specResetTrigger, hlt])
  · have hlt : env.now - st.issue_start_time < args.issue_max_wait := by omega
    cases hIF : env.issueFetch with
    | error e0 =>
      exact c1_of_next args issue_num st env st h0
        (by simp [tickStep, h0, hIF]) (by simp [tickStep, h0, hIF])
        (by simp [specResetTrigger, hIF]) rfl
    | ok issue =>
      by_cases hcl : (issue.state == "closed") = true
      · exact c1_of_merged args issue_num st env h0
          (by simp [tickStep, h0, hIF, hcl]) (by simp [tickStep, h0, hIF, hcl])
          (by simp [specResetTrigger, hIF, bne, hcl])
      · have hcl' : (issue.state == "closed") = false := by simpa using hcl
        cases hPF : env.prFetch with
        | error e1 =>
          exact c1_of_next args issue_num st env st h0
            (by simp [tickStep, h0, hIF, hcl', hPF])
            (by simp [tickStep, h0, hIF, hcl', hPF])
            (by simp [specResetTrigger, hIF, hPF]) rfl
        | ok opr =>
          cases opr with
          | none =>
            by_cases hwin : env.now - st.wait_start_time > PR_WAIT_TIMEOUT
            · exact c1_of_trigger args issue_num st env FailReason.waitPrResetLimit
                { st with
                    reset_count := st.reset_count + 1,
                    wait_start_time := env.now }
                [] st.reset_count rfl h0 (by simp)
                (by simp [tickStep, h0, hIF, hcl', hPF, hwin])
                (by simp [tickStep, h0, hIF, hcl', hPF, hwin])
                (by simp [specResetTrigger, hIF, hPF, bne, hcl', hwin, hlt])
            · exact c1_of_next args issue_num st env st h0
                (by simp [tickStep, h0, hIF, hcl', hPF, hwin])
                (by simp [tickStep, h0, hIF, hcl', hPF, hwin])
                (by simp [specResetTrigger, hIF, hPF, hwin]) rfl
          | some pr_num =>
            cases hPull : env.pullFetch with
            | error e2 =>
              exact c1_of_next args issue_num st env (track_pr st pr_num env.now) h0
                (by simp [tickStep, h0, hIF, hcl', hPF, hPull])
                (by simp [tickStep, h0, hIF, hcl', hPF, hPull])
                (by simp [specResetTrigger, hIF, hPF, hPull])
                (track_pr_reset_count st pr_num env.now)
            | ok pr =>
              cases hm : pr.merged_at with
              | some ts =>
                exact c1_of_merged args issue_num st env h0
                  (by simp [tickStep, h0, hIF, hcl', hPF, hPull, hm])
                  (by simp [tickStep, h0, hIF, hcl', hPF, hPull, hm])
                  (by simp [specResetTrigger, hIF, hPF, hPull, hm])
              | none =>
                by_cases hcl2 : (pr.pstate == "closed") = true
                · exact c1_of_trigger args issue_num st env FailReason.prClosedResetLimit
                    { track_pr st pr_num env.now with
                        reset_count := (track_pr st pr_num env.now).reset_count + 1,
                        current_pr := none,
                        pr_create_time := none,
                        wait_start_time := env.now }
                    [] (track_pr st pr_num env.now).reset_count
                    (track_pr_reset_count st pr_num env.now) h0
                    (by simp [track_pr_reset_count])
                    (by simp [tickStep, h0, hIF, hcl', hPF, hPull, hm, hcl2])
                    (by simp [tickStep, h0, hIF, hcl', hPF, hPull, hm, hcl2])
                    (by simp [specResetTrigger, hIF, hPF, hPull, hm, bne, hcl', hcl2, hlt])
                · have hcl2' : (pr.pstate == "closed") = false := by simpa using hcl2
                  by_cases hs : env.signal = true
                  · by_cases hmo : env.mergeOk = true
                    · exact c1_of_merged args issue_num st env h0
                        (by simp [tickStep, h0, hIF, hcl', hPF, hPull, hm, hcl2', hs, hmo])
                        (by simp [tickStep, h0, hIF, hcl', hPF, hPull, hm, hcl2', hs, hmo])
                        (by simp [specResetTrigger, hIF, hPF, hPull, hm, hcl2', hs, hmo])
                    · have hmo' : env.mergeOk = false := by simpa using hmo
                      by_cases hrc : recheck_merged env = true
                      · exact c1_of_merged args issue_num st env h0
                          (by simp [tickStep, h0, hIF, hcl', hPF, hPull, hm, hcl2',
                            hs, hmo', hrc])
                          (by simp [tickStep, h0, hIF, hcl', hPF, hPull, hm, hcl2',
                            hs, hmo', hrc])
                          (by simp [specResetTrigger, hIF, hPF, hPull, hm, hcl2',
                            hs, hmo', hrc])
                      · have hrc' : recheck_merged env = false := by simpa using hrc
                        exact c1_of_trigger args issue_num st env
                          FailReason.mergeFailResetLimit
                          { track_pr st pr_num env.now with
                              reset_count := (track_pr st pr_num env.now).reset_count + 1,
                              current_pr := none,
                              pr_create_time := none,
                              wait_start_time := env.now }
                          [Action.commentIssue pr_num, Action.closePr pr_num true]
                          (track_pr st pr_num env.now).reset_count
                          (track_pr_reset_count st pr_num env.now) h0
                          (by simp [track_pr_reset_count])
                          (by simp [tickStep, h0, hIF, hcl', hPF, hPull, hm, hcl2',
                            hs, hmo', hrc'])
                          (by simp [tickStep, h0, hIF, hcl', hPF, hPull, hm, hcl2',
                            hs, hmo', hrc'])
                          (by simp [specResetTrigger, hIF, hPF, hPull, hm, bne, hcl',
                            hcl2', hs, hmo', hrc', hlt])
                  · have hs' : env.signal = false := by simpa using hs
                    cases hpct : (track_pr st pr_num env.now).pr_create_time with
                    | some t =>
                      by_cases hage : env.now - t > PR_TIMEOUT
                      · exact c1_of_trigger args issue_num st env
                          FailReason.prTimeoutResetLimit
                          { track_pr st pr_num env.now with
                              reset_count := (track_pr st pr_num env.now).reset_count + 1,
                              current_pr := none,
                              pr_create_time := none,
                              wait_start_time := env.now }
                          [Action.commentIssue pr_num, Action.closePr pr_num true]
                          (track_pr st pr_num env.now).reset_count
                          (track_pr_reset_count st pr_num env.now) h0
                          (by simp [track_pr_reset_count])
                          (by simp [tickStep, h0, hIF, hcl', hPF, hPull, hm, hcl2',
                            hs', hpct, hage])
                          (by simp [tickStep, h0, hIF, hcl', hPF, hPull, hm, hcl2',
                            hs', hpct, hage])
                          (by simp [specResetTrigger, hIF, hPF, hPull, hm, bne, hcl',
                            hcl2', hs', hpct, hage, hlt])
                      · exact c1_of_next args issue_num st env
                          (track_pr st pr_num env.now) h0
                          (by simp [tickStep, h0, hIF, hcl', hPF, hPull, hm, hcl2',
                            hs', hpct, hage])
                          (by simp [tickStep, h0, hIF, hcl', hPF, hPull, hm, hcl2',
                            hs', hpct, hage])
                          (by simp [specResetTrigger, hIF, hPF, hPull, hm, hcl2',
                            hs', hpct, hage])
                          (track_pr_reset_count st pr_num env.now)
                    | none =>
                      exact c1_of_next args issue_num st env
                        (track_pr st pr_num env.now) h0
                        (by simp [tickStep, h0, hIF, hcl', hPF, hPull, hm, hcl2',
                          hs', hpct])
                        (by simp [tickStep, h0, hIF, hcl', hPF, hPull, hm, hcl2',
                          hs', hpct])
                        (by simp [specResetTrigger, hIF, hPF, hPull, hm, hcl2',
                          hs', hpct])
                        (track_pr_reset_count st pr_num env.now)

/-- A tick environment whose clock has passed the absolute monitoring
timeout while the ticket is open, no PR exists and no reset trigger
condition holds. -/
def c1CounterEnv : TickEnv :=
  { now := 36000
    issueFetch := .ok ⟨"open", []⟩
    prFetch := .ok none
    pullFetch := .ok ⟨"open", none, false⟩
    signal := false
    mergeOk := false
    recheckFetch := .ok ⟨"open", none, false⟩
    resetEnv := ⟨.ok ⟨"open", []⟩, fun _ => true⟩ }

/-- Counterexample to C1 as stated: on this tick the monitoring raises a
terminal exception (the absolute `issue_max_wait` timeout, source line
930) although no reset trigger occurs and the reset count (0) does not
equal the configured maximum (3) — so "Failed is raised exactly when a
reset trigger occurs while the reset count already equals the configured
maximum" is false. -/
theorem claim_C1_counterexample :
    (tickStep ⟨36000, 60⟩ 1 ⟨0, 0, none, none, 0⟩ c1CounterEnv).result
        = TickResult.raised FailReason.totalTimeout
    ∧ specResetTrigger ⟨36000, 60⟩ ⟨0, 0, none, none, 0⟩ c1CounterEnv = false
    ∧ (⟨0, 0, none, none, 0⟩ : MonState).reset_count ≠ DEFAULT_MAX_PR_RESETS :=
  ⟨rfl, rfl, by decide⟩

/-- A tick environment triggering a successful reset: PR-wait window
exceeded, open issue, Copilot not currently assigned, assignment
succeeding on the first candidate. -/
def c1ResetTickEnv : TickEnv :=
  { now := 2000
    issueFetch := .ok ⟨"open", []⟩
    prFetch := .ok none
    pullFetch := .ok ⟨"open", none, false⟩
    signal := false
    mergeOk := false
    recheckFetch := .ok ⟨"open", none, false⟩
    resetEnv := ⟨.ok ⟨"open", []⟩, fun _ => true⟩ }

/-- Witness for C1 at a concrete input: a tick that performs a reset moves
the reset count from 0 to exactly 1. -/
theorem claim_C1_witness :
    (⟨1, 2000, none, none, 0⟩ : MonState).reset_count
      = (⟨0, 0, none, none, 0⟩ : MonState).reset_count
        + ((tickStep ⟨36000, 60⟩ 1 ⟨0, 0, none, none, 0⟩ c1ResetTickEnv).didReset).toNat :=
  ((claim_C1_reset_accounting ⟨36000, 60⟩ 1 ⟨0, 0, none, none, 0⟩ c1ResetTickEnv).1).1
    ⟨1, 2000, none, none, 0⟩ rfl

/-- C3: on a monitoring tick that has not hit the absolute timeout, a
fetched ticket state of "closed" terminates the item with success
(Merged): no exception, no reset, no tracker mutation; the
closed-without-PR warning is logged exactly when no change-request is
currently tracked (`current_pr` is `None` — which in particular covers a
ticket for which no change-request was ever observed). -/
theorem claim_C3_closed_ticket_is_merged (args : MonArgs) (issue_num : Nat)
    (st : MonState) (env : TickEnv) (d : IssueData)
    (h0 : ¬ (env.now - st.issue_start_time ≥ args.issue_max_wait))
    (hfetch : env.issueFetch = .ok d)
    (hclosed : d.state = "closed") :
    tickStep args issue_num st env
      = ⟨TickResult.merged, false, st.current_pr.isNone, []⟩ := by
  simp [tickStep, h0, hfetch, hclosed]

/-- Witness for C3 at a concrete input: a closed ticket with no PR ever
observed ends Merged with the warning flag set. -/
theorem claim_C3_witness :
    tickStep ⟨36000, 60⟩ 1 ⟨0, 0, none, none, 0⟩
        { now := 100
          issueFetch := .ok ⟨"closed", []⟩
          prFetch := .ok none
          pullFetch := .ok ⟨"open", none, false⟩
          signal := false
          mergeOk := false
          recheckFetch := .ok ⟨"open", none, false⟩
          resetEnv := ⟨.ok ⟨"closed", []⟩, fun _ => true⟩ }
      = ⟨TickResult.merged, false, true, []⟩ :=
  claim_C3_closed_ticket_is_merged ⟨36000, 60⟩ 1 ⟨0, 0, none, none, 0⟩ _
    ⟨"closed", []⟩ (by decide) rfl rfl

theorem lastPrLink_no_link (l : List TimelineEvent)
    (h : ∀ e' ∈ l, (e'.event == "cross-referenced" && e'.has_pr_source) = false) :
    ∀ init, l.foldl
        (fun acc e =>
          if e.event == "cross-referenced" && e.has_pr_source then some e.source_number else acc)
        init = init := by
  induction l with
  | nil => intro init; rfl
  | cons x xs ih =>
    intro init
    rw [List.foldl_cons]
    have hx := h x (List.mem_cons_self x xs)
    simp only [hx, Bool.false_eq_true, if_false]
    exact ih (fun e' he' => h e' (List.mem_cons_of_mem x he')) init

/-- C7: (a) the timeline scan tracks exactly the most recently linked
change-request — `latest_pr_from_timeline` equals a fold keeping the last
cross-referenced pull-request link, and in particular any link followed
only by non-link events wins, superseding every earlier link; (b) on a
tick where the tracked change-request both carries the completion signal
and has aged past `PR_TIMEOUT`, the signal path is taken: with the merge
succeeding the tick ends Merged having performed exactly promote
(`pr ready`), the fixed post-ready sleep and the merge — no annotate,
close or reset; and (c) with the signal present the age-timeout path is
never taken: the tick can never raise the age-timeout reset-limit
failure. -/
theorem claim_C7_latest_link_and_signal_priority :
    (∀ events, latest_pr_from_timeline (some events) = lastPrLink events)
    ∧ (∀ (l1 l2 : List TimelineEvent) (e : TimelineEvent),
        (e.event == "cross-referenced" && e.has_pr_source) = true →
        (∀ e' ∈ l2, (e'.event == "cross-referenced" && e'.has_pr_source) = false) →
        latest_pr_from_timeline (some (l1 ++ e :: l2)) = some e.source_number)
    ∧ (∀ (args : MonArgs) (issue_num : Nat) (st : MonState) (env : TickEnv)
        (pr_num : Nat) (pr : PullData) (t : Int) (d : IssueData),
        ¬ (env.now - st.issue_start_time ≥ args.issue_max_wait) →
        env.issueFetch = .ok d → d.state ≠ "closed" →
        env.prFetch = .ok (some pr_num) →
        env.pullFetch = .ok pr →
        pr.merged_at = none → (pr.pstate == "closed") = false →
        env.signal = true →
        (track_pr st pr_num env.now).pr_create_time = some t →
        env.now - t > PR_TIMEOUT →
        env.mergeOk = true →
        tickStep args issue_num st env
          = ⟨TickResult.merged, false, false,
              [Action.prReady pr_num, Action.sleepFor PR_READY_WAIT, Action.mergePr pr_num]⟩)
    ∧ (∀ (args : MonArgs) (issue_num : Nat) (st : MonState) (env : TickEnv)
        (pr_num : Nat) (pr : PullData) (d : IssueData),
        ¬ (env.now - st.issue_start_time ≥ args.issue_max_wait) →
        env.issueFetch = .ok d → d.state ≠ "closed" →
        env.prFetch = .ok (some pr_num) →
        env.pullFetch = .ok pr →
        pr.merged_at = none → (pr.pstate == "closed") = false →
        env.signal = true →
        (tickStep args issue_num st env).result
          ≠ TickResult.raised FailReason.prTimeoutResetLimit) := by
  refine ⟨latest_pr_eq_lastPrLink, ?_, ?_, ?_⟩
  · intro l1 l2 e he hl2
    rw [latest_pr_eq_lastPrLink]
    unfold lastPrLink
    rw [List.foldl_append, List.foldl_cons]
    simp only [he, if_true]
    exact lastPrLink_no_link l2 hl2 (some e.source_number)
  · intro args issue_num st env pr_num pr t d h0 hIF hne hPF hPull hm hcl2 hs hpct hage hmo
    have hcl' : (d.state == "closed") = false := by simp [hne]
    simp [tickStep, h0, hIF, hcl', hPF, hPull, hm, hcl2, hs, hmo]
  · intro args issue_num st env pr_num pr d h0 hIF hne hPF hPull hm hcl2 hs
    have hcl' : (d.state == "closed") = false := by simp [hne]
    by_cases hmo : env.mergeOk = true
    · have hres : (tickStep args issue_num st env).result = TickResult.merged := by
        simp [tickStep, h0, hIF, hcl', hPF, hPull, hm, hcl2, hs, hmo]
      rw [hres]
      intro hcon
      cases hcon
    · have hmo' : env.mergeOk = false := by simpa using hmo
      by_cases hrc : recheck_merged env = true
      · have hres : (tickStep args issue_num st env).result = TickResult.merged := by
          simp [tickStep, h0, hIF, hcl', hPF, hPull, hm, hcl2, hs, hmo', hrc]
        rw [hres]
        intro hcon
        cases hcon
      · have hrc' : recheck_merged env = false := by simpa using hrc
        have hres : (tickStep args issue_num st env).result
            = (do_reset env.resetEnv issue_num FailReason.mergeFailResetLimit
                { track_pr st pr_num env.now with
                    reset_count := (track_pr st pr_num env.now).reset_count + 1,
                    current_pr := none,
                    pr_create_time := none,
                    wait_start_time := env.now }
                (track_pr st pr_num env.now).reset_count
                [Action.commentIssue pr_num, Action.closePr pr_num true]).result := by
          simp [tickStep, h0, hIF, hcl', hPF, hPull, hm, hcl2, hs, hmo', hrc']
        rw [hres]
        rcases do_reset_cases env.resetEnv issue_num FailReason.mergeFailResetLimit
            { track_pr st pr_num env.now with
                reset_count := (track_pr st pr_num env.now).reset_count + 1,
                current_pr := none,
                pr_create_time := none,
                wait_start_time := env.now }
            (track_pr st pr_num env.now).reset_count
            [Action.commentIssue pr_num, Action.closePr pr_num true] with
          ⟨_, hd⟩ | ⟨_, m, _, hd⟩ | ⟨_, _, hd⟩ <;> rw [hd] <;> intro hcon <;> cases hcon

/-- Witness for C7 at concrete inputs: the second of two linked PRs wins
the timeline scan, and a signalled PR aged far past its timeout is
promoted and merged on the same tick. -/
theorem claim_C7_witness :
    latest_pr_from_timeline
        (some [⟨"cross-referenced", true, 5⟩, ⟨"cross-referenced", true, 9⟩,
               ⟨"labeled", false, 0⟩]) = some 9
    ∧ tickStep ⟨36000, 60⟩ 1 ⟨0, 0, some 100, some 42, 0⟩
        { now := 20000
          issueFetch := .ok ⟨"open", []⟩
          prFetch := .ok (some 42)
          pullFetch := .ok ⟨"open", none, false⟩
          signal := true
          mergeOk := true
          recheckFetch := .ok ⟨"open", none, false⟩
          resetEnv := ⟨.ok ⟨"open", []⟩, fun _ => true⟩ }
      = ⟨TickResult.merged, false, false,
          [Action.prReady 42, Action.sleepFor PR_READY_WAIT, Action.mergePr 42]⟩ :=
  ⟨claim_C7_latest_link_and_signal_priority.2.1
      [⟨"cross-referenced", true, 5⟩] [⟨"labeled", false, 0⟩]
      ⟨"cross-referenced", true, 9⟩ (by decide) (by decide),
   claim_C7_latest_link_and_signal_priority.2.2.1 ⟨36000, 60⟩ 1
      ⟨0, 0, some 100, some 42, 0⟩ _ 42 ⟨"open", none, false⟩ 100 ⟨"open", []⟩
      (by decide) rfl (by decide) rfl rfl rfl (by decide) rfl rfl (by decide) rfl⟩

end AutoCopilot
